import Mathlib

/-!
Shallow embedding of `src/x2text_main.py` (class `TwitterScraper`): a Twitter
scraper that loads credentials, resolves user handles to ids, fetches tweets
through a paginated API, normalizes each raw page into flat tweet records, and
aggregates per-user results.

Network effects are modelled by oracles: the paginated fetch consumes a list of
`FetchResponse` values (one per API request issued), the user lookup consumes a
`LookupOutcome`, and credential-file reading consumes a `CredFile`.  Sleeps and
log lines are recorded explicitly in the results so that timing/logging claims
can be stated.
-/

namespace X2Text

/-- Engagement metrics payloads (`public_metrics` dicts) are carried opaquely as
string-keyed numeric maps; the scraper never inspects tweet-level metrics. -/
abbrev Metrics := List (String × Nat)

/-- Raw `tweet.entities` object.  Each entity list is optional: `none` models a
missing attribute (the Python code probes with `hasattr`). -/
structure RawEntities where
  hashtags : Option (List String)
  mentions : Option (List (String × Nat))
  urls : Option (List (String × String))
deriving DecidableEq, Repr

/-- A `referenced_tweets` pointer on a raw tweet: reference type and target id. -/
structure RefPtr where
  type : String
  id : Nat
deriving DecidableEq, Repr

/-- A raw tweet as delivered by the API client.  `id`, `text` and `created_at`
are `Option` because the Python code accesses them as bare attributes
(lines 251-253): a missing one raises an `AttributeError`, which the embedding
surfaces as an `Except.error`.  The remaining fields are optional attributes
probed via `getattr`/`hasattr`.  `attachments_media_keys` is `some` exactly when
both `tweet.attachments` and `tweet.attachments.media_keys` exist.  Timestamps
are carried as their ISO-8601 strings. -/
structure RawTweet where
  id : Option Nat
  text : Option String
  created_at : Option String
  author_id : Nat
  lang : Option String
  source : Option String
  public_metrics : Option Metrics
  attachments_media_keys : Option (List String)
  referenced_tweets : Option (List RefPtr)
  entities : Option RawEntities
deriving DecidableEq, Repr

/-- An entry of the `includes['users']` side table.  The fields the code reads
unconditionally (`id`, `name`, `username`, `description`, the three
`public_metrics` counts) are total; `verified` and `profile_image_url` are read
with `getattr` defaults and so are optional. -/
structure IncludedUser where
  id : Nat
  name : String
  username : String
  description : String
  followers_count : Nat
  following_count : Nat
  tweet_count : Nat
  verified : Option Bool
  profile_image_url : Option String
deriving DecidableEq, Repr

/-- An entry of the `includes['media']` side table. -/
structure IncludedMedia where
  media_key : String
  type : String
  url : Option String
  alt_text : Option String
  public_metrics : Option Metrics
deriving DecidableEq, Repr

/-- An entry of the `includes['tweets']` side table (referenced tweets).  The
code reads `text` and `created_at` unconditionally on a looked-up entry and
probes `public_metrics` with `hasattr`. -/
structure IncludedTweet where
  id : Nat
  text : String
  created_at : String
  public_metrics : Option Metrics
deriving DecidableEq, Repr

/-- One page of the paginated `get_users_tweets` response.  A side table that is
absent from `includes` is `none`; `next_token` is `some` exactly when
`'next_token' in tweets.meta`.  An empty or `None` `data` field is modelled by
the empty list (the code treats both identically via `if not tweets.data`). -/
structure RawResponse where
  data : List RawTweet
  includes_users : Option (List IncludedUser)
  includes_media : Option (List IncludedMedia)
  includes_tweets : Option (List IncludedTweet)
  next_token : Option String
deriving DecidableEq, Repr

/-- Normalized author summary (`author_info` dict built at lines 177-187). -/
structure AuthorInfo where
  id : Nat
  name : String
  username : String
  description : String
  followers_count : Nat
  following_count : Nat
  tweet_count : Nat
  verified : Bool
  profile_image_url : Option String
deriving DecidableEq, Repr

/-- Normalized entities object.  It has exactly the three fields `hashtags`,
`mentions`, `urls`, mirroring the dict initialized at lines 227-231; being a
structure, all three are always present. -/
structure Entities where
  hashtags : List String
  mentions : List (String × Nat)
  urls : List (String × String)
deriving DecidableEq, Repr

/-- Normalized media attachment item (lines 195-203). -/
structure MediaItem where
  type : String
  media_key : String
  url : Option String
  alt_text : Option String
  metrics : Option Metrics
deriving DecidableEq, Repr

/-- Normalized referenced-tweet record (lines 211-222).  The enrichment fields
`text`, `created_at`, `public_metrics` are filled only when the target tweet is
present in the includes lookup. -/
structure RefData where
  type : String
  id : Nat
  text : Option String
  created_at : Option String
  public_metrics : Option Metrics
deriving DecidableEq, Repr

/-- The final normalized tweet object (`tweet_obj`, lines 250-261). -/
structure TweetObj where
  id : Nat
  text : String
  created_at : String
  lang : Option String
  source : Option String
  public_metrics : Option Metrics
  author : Option AuthorInfo
  media : Option (List MediaItem)
  referenced_tweets : Option (List RefData)
  entities : Entities
deriving DecidableEq, Repr

/-- Lookup in a Python dict built by a comprehension over a list: the value
under the last list entry satisfying the key predicate wins (later entries
overwrite earlier ones). -/
def dictFind {α : Type} (p : α → Bool) (l : List α) : Option α :=
  l.reverse.find? p

/-- The entities extraction of lines 226-247: the dict starts with three empty
lists and a key is overwritten when the raw entities object exists and that
list exists and is non-empty.  A present-but-empty list is falsy in Python and
leaves the default, which coincides with the list itself, so each output list
equals the raw list when present and `[]` otherwise. -/
def extractEntities : Option RawEntities → Entities
  | none => ⟨[], [], []⟩
  | some e => ⟨e.hashtags.getD [], e.mentions.getD [], e.urls.getD []⟩

/-- Normalization of a single raw tweet, the body of the `for tweet in
tweets_response.data` loop (lines 171-263).  The three lookup arguments are the
already-built side tables.  Accessing a missing mandatory attribute (`id`,
`text`, `created_at`) raises in Python; here it yields `Except.error`. -/
def processTweet (users : List IncludedUser) (media : List IncludedMedia)
    (tweets_lookup : List IncludedTweet) (tweet : RawTweet) :
    Except String TweetObj :=
  let author := dictFind (fun u => u.id == tweet.author_id) users
  let author_info : Option AuthorInfo := author.map fun a =>
    { id := a.id
      name := a.name
      username := a.username
      description := a.description
      followers_count := a.followers_count
      following_count := a.following_count
      tweet_count := a.tweet_count
      verified := a.verified.getD false
      profile_image_url := a.profile_image_url }
  let media_items : List MediaItem :=
    match tweet.attachments_media_keys with
    | none => []
    | some keys => keys.filterMap fun k =>
        (dictFind (fun m => m.media_key == k) media).map fun m =>
          { type := m.type
            media_key := k
            url := m.url
            alt_text := m.alt_text
            metrics := m.public_metrics }
  let referenced : List RefData :=
    match tweet.referenced_tweets with
    | none => []
    | some refs => refs.map fun r =>
        match dictFind (fun t => t.id == r.id) tweets_lookup with
        | some rt =>
            { type := r.type, id := r.id, text := some rt.text
              created_at := some rt.created_at
              public_metrics := rt.public_metrics }
        | none =>
            { type := r.type, id := r.id, text := none
              created_at := none, public_metrics := none }
  let entities := extractEntities tweet.entities
  match tweet.id, tweet.text, tweet.created_at with
  | some i, some tx, some ca =>
      .ok { id := i
            text := tx
            created_at := ca
            lang := tweet.lang
            source := tweet.source
            public_metrics := tweet.public_metrics
            author := author_info
            media := if media_items.isEmpty then none else some media_items
            referenced_tweets :=
              if referenced.isEmpty then none else some referenced
            entities := entities }
  | _, _, _ => .error "AttributeError"

/-- The tweet loop of `_process_tweets`: normalize each raw tweet in order; the
first raised error aborts the whole call (Python exceptions propagate out of
the `for` loop). -/
def processList (users : List IncludedUser) (media : List IncludedMedia)
    (tweets_lookup : List IncludedTweet) :
    List RawTweet → Except String (List TweetObj)
  | [] => .ok []
  | t :: ts =>
      match processTweet users media tweets_lookup t with
      | .error e => .error e
      | .ok o =>
          match processList users media tweets_lookup ts with
          | .error e => .error e
          | .ok os => .ok (o :: os)

/-- `TwitterScraper._process_tweets` (lines 150-265): returns `[]` for an empty
page, otherwise builds the three side-table lookups (a missing side table
behaves as an empty dict, lines 158-168) and normalizes each tweet in order. -/
def process_tweets (resp : RawResponse) : Except String (List TweetObj) :=
  if resp.data.isEmpty then .ok []
  else
    processList (resp.includes_users.getD []) (resp.includes_media.getD [])
      (resp.includes_tweets.getD []) resp.data

/-- One outcome of an API request issued by the pagination loop: a page, a
`tweepy.TooManyRequests` rate-limit signal, or any other exception (which also
covers an exception raised while processing the fetched page, since the
generic `except Exception` handler wraps the whole loop body). -/
inductive FetchResponse where
  | page (resp : RawResponse)
  | rateLimit
  | otherError
deriving DecidableEq, Repr

/-- Result of the pagination loop: the collected tweets, the pagination token
sent with each request in order (`none` for the first page), and the sleeps
performed in seconds (1 between pages, 15*60 on a rate limit). -/
structure LoopResult where
  tweets : List TweetObj
  requests : List (Option String)
  sleeps : List Nat
deriving DecidableEq, Repr

/-- The `while True` pagination loop of `get_user_tweets` (lines 108-146),
driven by an oracle list of responses, one consumed per request issued.  State:
the current `pagination_token` and the accumulated `all_tweets`.  Per iteration:
break on an empty page; extend with the processed page; truncate to
`max_tweets` and break once the accumulator reaches it; break when the page
has no `next_token`, else adopt it and sleep 1 second; on a rate-limit signal
sleep 15 minutes and retry with unchanged state; on any other error (including
a processing error) break, keeping the accumulator.  If the oracle runs out the
loop stops with the state collected so far. -/
def fetchLoop : List FetchResponse → Option String → List TweetObj → Nat →
    LoopResult
  | [], _, all_tweets, _ => ⟨all_tweets, [], []⟩
  | .rateLimit :: rest, token, all_tweets, max_tweets =>
      let r := fetchLoop rest token all_tweets max_tweets
      ⟨r.tweets, token :: r.requests, 15 * 60 :: r.sleeps⟩
  | .otherError :: _, token, all_tweets, _ => ⟨all_tweets, [token], []⟩
  | .page resp :: rest, token, all_tweets, max_tweets =>
      if resp.data.isEmpty then ⟨all_tweets, [token], []⟩
      else
        match process_tweets resp with
        | .error _ => ⟨all_tweets, [token], []⟩
        | .ok processed =>
            let acc := all_tweets ++ processed
            if max_tweets ≤ acc.length then ⟨acc.take max_tweets, [token], []⟩
            else
              match resp.next_token with
              | some t =>
                  let r := fetchLoop rest (some t) acc max_tweets
                  ⟨r.tweets, token :: r.requests, 1 :: r.sleeps⟩
              | none => ⟨acc, [token], []⟩

/-- `TwitterScraper.get_user_tweets` (lines 97-148): run the pagination loop
from an empty accumulator and no pagination token. -/
def get_user_tweets (responses : List FetchResponse) (max_tweets : Nat) :
    LoopResult :=
  fetchLoop responses none [] max_tweets

/-- The tweets contributed by one consumed response: the processed page for a
page response that processes cleanly, nothing otherwise. -/
def processedOf : FetchResponse → List TweetObj
  | .page resp =>
      match process_tweets resp with
      | .ok l => l
      | .error _ => []
  | .rateLimit => []
  | .otherError => []

/-- The five-field credential bundle read from `twitter_credentials.json`. -/
structure Credentials where
  consumer_key : String
  consumer_secret : String
  access_token : String
  access_token_secret : String
  bearer_token : String
deriving DecidableEq, Repr

/-- What the credential file parse can yield: malformed JSON
(`json.JSONDecodeError`), some other read error (e.g. a `KeyError` on a missing
field, caught by the generic handler), or a well-formed bundle. -/
inductive CredFile where
  | malformed
  | readError
  | valid (c : Credentials)
deriving DecidableEq, Repr

/-- Outcome of `_load_credentials`: either a fatal `exit(1)` — with a flag
recording whether the sample placeholder file was re-written first — or the
validated bundle. -/
inductive LoadResult where
  | exit (code : Nat) (recreated_sample : Bool)
  | ok (c : Credentials)
deriving DecidableEq, Repr

/-- `TwitterScraper._load_credentials` (lines 46-65): malformed JSON re-writes
the sample file and exits; any other read error exits; a parsed bundle is
rejected (exit) exactly when its `consumer_key` still equals the sample
placeholder `"YOUR_CONSUMER_KEY"` — no other field is compared against its
placeholder. -/
def load_credentials : CredFile → LoadResult
  | .malformed => .exit 1 true
  | .readError => .exit 1 false
  | .valid c =>
      if c.consumer_key = "YOUR_CONSUMER_KEY" then .exit 1 false else .ok c

/-- Outcome of the single `client.get_user(username=...)` request: a user
object with an id, a response with `data` empty/None, or a raised exception. -/
inductive LookupOutcome where
  | found (id : Nat)
  | noData
  | raised (msg : String)
deriving DecidableEq, Repr

/-- Log levels used by the scraper. -/
inductive LogLevel where
  | info
  | warning
  | error
deriving DecidableEq, Repr

/-- `TwitterScraper.get_user_id` (lines 84-95): returns the id when the
response has data; logs at error level and returns `None` when it does not;
and catches every exception, logging at error level and returning `None` —
nothing is re-raised.  The second component is the list of log lines emitted
by this call. -/
def get_user_id : LookupOutcome → Option Nat × List (LogLevel × String)
  | .found i => (some i, [])
  | .noData => (none, [(.error, "User not found")])
  | .raised _ => (none, [(.error, "Error getting user ID")])

/-- One configured account for `follow_users`: its handle, the oracle outcome
of its `get_user(username=...)` lookup, and the oracle responses of its
pagination loop. -/
structure Account where
  username : String
  lookup : LookupOutcome
  responses : List FetchResponse
deriving DecidableEq, Repr

/-- `TwitterScraper.follow_users` (lines 267-287).  Returns the combined
`all_data` mapping (handle → tweets, in configuration order) and the list of
per-account files written by `_save_user_data` (handle → tweets saved).  An
account is skipped when `not user_id` holds in Python — the lookup returned
`None` or the falsy id `0` — and contributes nothing when its fetch yields no
tweets; otherwise its tweets enter the mapping and are saved immediately. -/
def follow_users : List Account → Nat → List (String × List TweetObj) × List (String × List TweetObj)
  | [], _ => ([], [])
  | a :: rest, tweets_per_user =>
      let r := follow_users rest tweets_per_user
      match (get_user_id a.lookup).1 with
      | none => r
      | some uid =>
          if uid = 0 then r
          else
            let tweets := (get_user_tweets a.responses tweets_per_user).tweets
            if tweets.isEmpty then r
            else ((a.username, tweets) :: r.1, (a.username, tweets) :: r.2)

/-- A minimal well-formed raw tweet (all optional fields absent), used by the
concrete scenarios below. -/
def sampleTweet (n : Nat) : RawTweet :=
  { id := some n, text := some "hello", created_at := some "2025-01-01T00:00:00"
    author_id := 7, lang := none, source := none, public_metrics := none
    attachments_media_keys := none, referenced_tweets := none, entities := none }

/-- The normalized record `sampleTweet n` maps to. -/
def sampleObj (n : Nat) : TweetObj :=
  { id := n, text := "hello", created_at := "2025-01-01T00:00:00"
    lang := none, source := none, public_metrics := none, author := none
    media := none, referenced_tweets := none, entities := ⟨[], [], []⟩ }

/-- Scenario page `P1`: five posts and continuation token `"T"`. -/
def samplePage1 : RawResponse :=
  { data := [sampleTweet 1, sampleTweet 2, sampleTweet 3, sampleTweet 4, sampleTweet 5]
    includes_users := none, includes_media := none, includes_tweets := none
    next_token := some "T" }

/-- Scenario page `P2`: three posts and no continuation token. -/
def samplePage2 : RawResponse :=
  { data := [sampleTweet 6, sampleTweet 7, sampleTweet 8]
    includes_users := none, includes_media := none, includes_tweets := none
    next_token := none }

/-- A sentinel page placed after the scenario pages: the loop must stop before
ever requesting it. -/
def sampleExtraPage : RawResponse :=
  { data := [sampleTweet 9]
    includes_users := none, includes_media := none, includes_tweets := none
    next_token := none }

/-- A page whose `data` is empty. -/
def sampleEmptyPage : RawResponse :=
  { data := [], includes_users := none, includes_media := none
    includes_tweets := none, next_token := none }

/-- A raw tweet carrying an entities object with hashtags, one mention and no
urls attribute, used to exercise the entity extraction concretely. -/
def sampleTweetEnt : RawTweet :=
  { sampleTweet 10 with
    entities := some { hashtags := some ["lean"], mentions := some [("bob", 3)]
                       urls := none } }

/-- A two-post page mixing a post with entities and one without. -/
def samplePageEnt : RawResponse :=
  { data := [sampleTweetEnt, sampleTweet 11]
    includes_users := none, includes_media := none, includes_tweets := none
    next_token := none }

/-- The normalized record `sampleTweetEnt` maps to. -/
def sampleObjEnt : TweetObj :=
  { sampleObj 10 with entities := ⟨["lean"], [("bob", 3)], []⟩ }

/-- A credential bundle whose `bearer_token` still equals its sample
placeholder while `consumer_key` has been filled in. -/
def credsBearerPlaceholder : Credentials :=
  { consumer_key := "real_ck", consumer_secret := "real_cs"
    access_token := "real_at", access_token_secret := "real_ats"
    bearer_token := "YOUR_BEARER_TOKEN" }

/-- A normalized record determines its raw tweet's mandatory fields and its
entities come from `extractEntities`. -/
lemma processTweet_ok_fields (u : List IncludedUser) (m : List IncludedMedia)
    (tl : List IncludedTweet) (t : RawTweet) (o : TweetObj)
    (h : processTweet u m tl t = .ok o) :
    t.id = some o.id ∧ t.text = some o.text ∧ t.created_at = some o.created_at ∧
    o.entities = extractEntities t.entities := by
  cases hid : t.id <;> cases htx : t.text <;> cases hca : t.created_at <;>
    simp [processTweet, hid, htx, hca] at h ⊢
  subst h
  simp

/-- A raw tweet with its mandatory fields present always normalizes. -/
lemma processTweet_isOk (u : List IncludedUser) (m : List IncludedMedia)
    (tl : List IncludedTweet) (t : RawTweet)
    (h : t.id.isSome ∧ t.text.isSome ∧ t.created_at.isSome) :
    ∃ o, processTweet u m tl t = .ok o := by
  obtain ⟨i, hid⟩ := Option.isSome_iff_exists.mp h.1
  obtain ⟨tx, htx⟩ := Option.isSome_iff_exists.mp h.2.1
  obtain ⟨ca, hca⟩ := Option.isSome_iff_exists.mp h.2.2
  simp [processTweet, hid, htx, hca]

/-- A list of raw tweets with mandatory fields present normalizes as a whole. -/
lemma processList_isOk (u : List IncludedUser) (m : List IncludedMedia)
    (tl : List IncludedTweet) (ts : List RawTweet)
    (h : ∀ t ∈ ts, t.id.isSome ∧ t.text.isSome ∧ t.created_at.isSome) :
    ∃ os, processList u m tl ts = .ok os := by
  induction ts with
  | nil => exact ⟨[], rfl⟩
  | cons t ts ih =>
      obtain ⟨o, ho⟩ := processTweet_isOk u m tl t (h t (by simp))
      obtain ⟨os, hos⟩ := ih (fun x hx => h x (by simp [hx]))
      exact ⟨o :: os, by simp [processList, ho, hos]⟩

/-- A successful `processList` yields one output per input, and pairing inputs
with outputs positionwise recovers each per-tweet normalization. -/
lemma processList_zip (u : List IncludedUser) (m : List IncludedMedia)
    (tl : List IncludedTweet) :
    ∀ (ts : List RawTweet) (os : List TweetObj),
      processList u m tl ts = .ok os →
      os.length = ts.length ∧
      ∀ p ∈ ts.zip os, processTweet u m tl p.1 = .ok p.2 := by
  intro ts
  induction ts with
  | nil => intro os h; simp [processList] at h; subst h; simp
  | cons t ts ih =>
      intro os h
      simp only [processList] at h
      cases hpt : processTweet u m tl t with
      | error e => rw [hpt] at h; simp at h
      | ok o =>
          rw [hpt] at h
          cases hpl : processList u m tl ts with
          | error e => rw [hpl] at h; simp at h
          | ok os' =>
              rw [hpl] at h
              simp only [Except.ok.injEq] at h
              subst h
              obtain ⟨hlen, hzip⟩ := ih os' hpl
              refine ⟨by simp [hlen], ?_⟩
              intro p hp
              simp only [List.zip_cons_cons, List.mem_cons] at hp
              rcases hp with rfl | hp
              · exact hpt
              · exact hzip p hp

/-- Processing a page whose data list is empty yields the empty output. -/
lemma process_tweets_empty (resp : RawResponse) (hemp : resp.data.isEmpty) :
    process_tweets resp = .ok [] := by
  simp [process_tweets, hemp]

/-- Loop invariant of the pagination loop: starting from an accumulator within
the cap, the returned tweets are the first `cap` elements of the accumulator
followed by the concatenated processed pages of exactly the responses it
consumed (one per request issued), in fetch order. -/
lemma fetchLoop_tweets_spec :
    ∀ (responses : List FetchResponse) (token : Option String)
      (acc : List TweetObj) (cap : Nat), acc.length ≤ cap →
      (fetchLoop responses token acc cap).tweets =
        (acc ++ ((responses.take
          (fetchLoop responses token acc cap).requests.length).map
            processedOf).flatten).take cap := by
  intro responses
  induction responses with
  | nil =>
      intro token acc cap hle
      simp [fetchLoop, List.take_of_length_le hle]
  | cons r rest ih =>
      intro token acc cap hle
      cases r with
      | rateLimit =>
          simp only [fetchLoop, List.length_cons, List.take_succ_cons,
            List.map_cons, List.flatten_cons, processedOf]
          rw [ih token acc cap hle]
          simp
      | otherError =>
          simp [fetchLoop, processedOf, List.take_of_length_le hle]
      | page resp =>
          by_cases hemp : resp.data.isEmpty
          · have hpe := process_tweets_empty resp hemp
            simp [fetchLoop, hemp, processedOf, hpe, List.take_of_length_le hle]
          · simp only [fetchLoop, hemp, if_false, Bool.false_eq_true]
            cases hp : process_tweets resp with
            | error e =>
                simp [processedOf, hp, List.take_of_length_le hle]
            | ok processed =>
                simp only [List.length_append]
                by_cases hcap : cap ≤ acc.length + processed.length
                · simp [hcap, processedOf, hp]
                · have hle' : (acc ++ processed).length ≤ cap := by
                    simp only [List.length_append]
                    exact le_of_lt (lt_of_not_le hcap)
                  rw [if_neg hcap]
                  cases hnt : resp.next_token with
                  | none =>
                      simp [processedOf, hp, List.take_of_length_le hle']
                  | some tok =>
                      simp only [List.length_cons, List.take_succ_cons,
                        List.map_cons, List.flatten_cons, processedOf, hp]
                      rw [ih (some tok) (acc ++ processed) cap hle']
                      simp [List.append_assoc, List.map_take]

/-- The loop issues at least one request when it has at least one response to
consume. -/
lemma fetchLoop_requests_ne_nil (r : FetchResponse) (rest : List FetchResponse)
    (token : Option String) (acc : List TweetObj) (cap : Nat) :
    (fetchLoop (r :: rest) token acc cap).requests ≠ [] := by
  cases r with
  | rateLimit => simp [fetchLoop]
  | otherError => simp [fetchLoop]
  | page resp =>
      by_cases hemp : resp.data.isEmpty
      · simp [fetchLoop, hemp]
      · simp only [fetchLoop, hemp, if_false, Bool.false_eq_true]
        cases hp : process_tweets resp with
        | error e => simp
        | ok processed =>
            simp only [List.length_append]
            by_cases hcap : cap ≤ acc.length + processed.length
            · simp [hcap]
            · rw [if_neg hcap]
              cases hnt : resp.next_token <;> simp

/-- Claim C1: for every oracle of responses and every per-account cap, the
pagination loop returns exactly the first `cap` posts of the pages it fetched,
concatenated in fetch order (hence never more than the cap); in particular with
cap 4 and a first page of five posts it returns posts 1-4 of that page and
issues exactly one request, never reaching the page placed after it. -/
theorem C1_pagination_cap_truncation :
    (∀ (responses : List FetchResponse) (cap : Nat),
      (get_user_tweets responses cap).tweets =
        (((responses.take
            (get_user_tweets responses cap).requests.length).map
              processedOf).flatten).take cap ∧
      (get_user_tweets responses cap).tweets.length ≤ cap) ∧
    get_user_tweets [.page samplePage1, .page sampleExtraPage] 4 =
      ⟨[sampleObj 1, sampleObj 2, sampleObj 3, sampleObj 4], [none], []⟩ := by
  constructor
  · intro responses cap
    have h := fetchLoop_tweets_spec responses none [] cap (by simp)
    constructor
    · simpa [get_user_tweets] using h
    · rw [show (get_user_tweets responses cap).tweets =
          (fetchLoop responses none [] cap).tweets from rfl, h]
      simp [List.length_take]
  · decide

/-- Claim C2: every normalized record's entities object (a structure with
exactly the three fields `hashtags`, `mentions`, `urls`) carries, for each
entity kind, the raw post's list when present and the empty list when the kind
or the whole raw entities object is absent. -/
theorem C2_entities_three_keys_default_empty (resp : RawResponse)
    (l : List TweetObj) (h : process_tweets resp = .ok l) :
    ∀ p ∈ resp.data.zip l,
      p.2.entities.hashtags = (p.1.entities.bind RawEntities.hashtags).getD [] ∧
      p.2.entities.mentions = (p.1.entities.bind RawEntities.mentions).getD [] ∧
      p.2.entities.urls = (p.1.entities.bind RawEntities.urls).getD [] ∧
      (p.1.entities = none → p.2.entities = ⟨[], [], []⟩) := by
  intro p hp
  by_cases hemp : resp.data.isEmpty
  · rw [List.isEmpty_iff] at hemp
    rw [hemp] at hp
    simp at hp
  · have hl : processList (resp.includes_users.getD [])
        (resp.includes_media.getD []) (resp.includes_tweets.getD [])
        resp.data = .ok l := by
      simpa [process_tweets, hemp] using h
    have hz := (processList_zip _ _ _ _ _ hl).2 p hp
    have hf := (processTweet_ok_fields _ _ _ _ _ hz).2.2.2
    rw [hf]
    cases he : p.1.entities with
    | none => simp [extractEntities]
    | some e => simp [extractEntities, Option.bind]

/-- Witness for C2 on a concrete page holding one post with entities and one
without any entities object. -/
theorem C2_entities_three_keys_default_empty_witness :
    process_tweets samplePageEnt = .ok [sampleObjEnt, sampleObj 11] ∧
    (sampleTweet 11, sampleObj 11) ∈
      samplePageEnt.data.zip [sampleObjEnt, sampleObj 11] ∧
    ((sampleObj 11).entities.hashtags =
        ((sampleTweet 11).entities.bind RawEntities.hashtags).getD [] ∧
      (sampleObj 11).entities.mentions =
        ((sampleTweet 11).entities.bind RawEntities.mentions).getD [] ∧
      (sampleObj 11).entities.urls =
        ((sampleTweet 11).entities.bind RawEntities.urls).getD [] ∧
      ((sampleTweet 11).entities = none →
        (sampleObj 11).entities = ⟨[], [], []⟩)) :=
  ⟨by rfl, by decide,
   C2_entities_three_keys_default_empty samplePageEnt
     [sampleObjEnt, sampleObj 11] (by rfl) (sampleTweet 11, sampleObj 11)
     (by decide)⟩

/-- Claim C3: a page whose raw posts all carry their mandatory `id`, `text`
and `created_at` fields normalizes to exactly one record per raw post, in the
same order (pairing input and output positionwise matches the mandatory
fields). -/
theorem C3_one_record_per_post_in_order (resp : RawResponse)
    (h : ∀ t ∈ resp.data, t.id.isSome ∧ t.text.isSome ∧ t.created_at.isSome) :
    ∃ l, process_tweets resp = .ok l ∧ l.length = resp.data.length ∧
      ∀ p ∈ resp.data.zip l,
        p.1.id = some p.2.id ∧ p.1.text = some p.2.text ∧
        p.1.created_at = some p.2.created_at := by
  by_cases hemp : resp.data.isEmpty
  · rw [List.isEmpty_iff] at hemp
    exact ⟨[], by simp [process_tweets, hemp], by simp [hemp], by simp [hemp]⟩
  · obtain ⟨os, hos⟩ := processList_isOk (resp.includes_users.getD [])
      (resp.includes_media.getD []) (resp.includes_tweets.getD []) resp.data h
    refine ⟨os, by simp [process_tweets, hemp, hos],
      (processList_zip _ _ _ _ _ hos).1, ?_⟩
    intro p hp
    have hz := (processList_zip _ _ _ _ _ hos).2 p hp
    have hf := processTweet_ok_fields _ _ _ _ _ hz
    exact ⟨hf.1, hf.2.1, hf.2.2.1⟩

/-- Witness for C3 on the concrete three-post page `samplePage2`. -/
theorem C3_one_record_per_post_in_order_witness :
    (∀ t ∈ samplePage2.data,
      t.id.isSome ∧ t.text.isSome ∧ t.created_at.isSome) ∧
    (∃ l, process_tweets samplePage2 = .ok l ∧
      l.length = samplePage2.data.length ∧
      ∀ p ∈ samplePage2.data.zip l,
        p.1.id = some p.2.id ∧ p.1.text = some p.2.text ∧
        p.1.created_at = some p.2.created_at) :=
  ⟨by decide, C3_one_record_per_post_in_order samplePage2 (by decide)⟩

/-- Claim C4 counterexample: a bundle whose `bearer_token` still equals its
placeholder but whose `consumer_key` has been filled in is accepted by
credential loading, refuting the claim that loading refuses whenever any of
the five fields equals its placeholder. -/
theorem C4_counterexample_bearer_placeholder_accepted :
    credsBearerPlaceholder.bearer_token = "YOUR_BEARER_TOKEN" ∧
    load_credentials (.valid credsBearerPlaceholder) =
      .ok credsBearerPlaceholder := by
  constructor
  · rfl
  · decide

/-- Claim C4 (amended): credential loading terminates fatally exactly when
`consumer_key` equals its placeholder `"YOUR_CONSUMER_KEY"` — the other four
placeholder fields are never compared; malformed JSON re-writes the sample
file before the fatal exit, and any other read error exits without doing so. -/
theorem C4_amended_only_consumer_key_checked :
    (∀ c : Credentials,
      load_credentials (.valid c) = .ok c ↔
        c.consumer_key ≠ "YOUR_CONSUMER_KEY") ∧
    (∀ c : Credentials,
      load_credentials (.valid c) = .exit 1 false ↔
        c.consumer_key = "YOUR_CONSUMER_KEY") ∧
    load_credentials .malformed = .exit 1 true ∧
    load_credentials .readError = .exit 1 false := by
  refine ⟨?_, ?_, rfl, rfl⟩
  · intro c
    by_cases hck : c.consumer_key = "YOUR_CONSUMER_KEY" <;>
      simp [load_credentials, hck]
  · intro c
    by_cases hck : c.consumer_key = "YOUR_CONSUMER_KEY" <;>
      simp [load_credentials, hck]

/-- Claim C5 counterexample: an exception during account resolution is
converted into a `none` return instead of being propagated, and the not-found
path logs at error level rather than warning level — refuting the claim that
`none` is returned exactly on not-found with other failures propagated. -/
theorem C5_counterexample_error_returns_none :
    (get_user_id (.raised "ConnectionError")).1 = none ∧
    get_user_id .noData = (none, [(LogLevel.error, "User not found")]) :=
  ⟨rfl, rfl⟩

/-- Claim C5 (amended): `get_user_id` returns `none` both when the platform
reports no such user and when any exception is raised during resolution —
logging at error level in both cases and never propagating — and returns the
id exactly when the lookup succeeds. -/
theorem C5_amended_never_propagates :
    (∀ i : Nat, get_user_id (.found i) = (some i, [])) ∧
    get_user_id .noData = (none, [(LogLevel.error, "User not found")]) ∧
    (∀ e : String,
      get_user_id (.raised e) =
        (none, [(LogLevel.error, "Error getting user ID")])) ∧
    (∀ o : LookupOutcome,
      (get_user_id o).1 = none ↔ ∀ i : Nat, o ≠ .found i) := by
  refine ⟨fun i => rfl, rfl, fun e => rfl, ?_⟩
  intro o
  cases o <;> simp [get_user_id]

/-- Claim C6: a rate-limit signal makes the loop sleep exactly 15 minutes
(900 seconds) and reissue one request with the same continuation token and an
unchanged accumulator — the page is not skipped and nothing else in the loop
state advances — and `n` consecutive rate-limit signals are retried `n` times
with no backoff growth and no retry ceiling. -/
theorem C6_rate_limit_retry_same_token :
    (∀ (rest : List FetchResponse) (token : Option String)
       (acc : List TweetObj) (cap : Nat),
      fetchLoop (.rateLimit :: rest) token acc cap =
        ⟨(fetchLoop rest token acc cap).tweets,
         token :: (fetchLoop rest token acc cap).requests,
         15 * 60 :: (fetchLoop rest token acc cap).sleeps⟩) ∧
    (∀ (n : Nat) (rest : List FetchResponse) (token : Option String)
       (acc : List TweetObj) (cap : Nat),
      fetchLoop (List.replicate n .rateLimit ++ rest) token acc cap =
        ⟨(fetchLoop rest token acc cap).tweets,
         List.replicate n token ++ (fetchLoop rest token acc cap).requests,
         List.replicate n (15 * 60) ++ (fetchLoop rest token acc cap).sleeps⟩) := by
  constructor
  · intro rest token acc cap
    simp [fetchLoop]
  · intro n
    induction n with
    | zero => intro rest token acc cap; simp
    | succ k ih =>
        intro rest token acc cap
        simp only [List.replicate_succ, List.cons_append, fetchLoop,
          List.append_eq, ih]

/-- Claim C7: after consuming a cleanly-processing page the loop issues a
further request if and only if the page had posts, the accumulated count is
still below the cap and the page carried a continuation token (and the oracle
has responses left) — i.e. it terminates exactly on an empty page, on reaching
the cap, or on a missing token; concretely, on pages
`[P1(5 posts, token T), P2(3 posts, no token)]` with cap 100 it returns all 8
posts in order and issues no request after P2. -/
theorem C7_loop_termination_conditions :
    (∀ (resp : RawResponse) (rest : List FetchResponse) (token : Option String)
       (acc : List TweetObj) (cap : Nat) (l : List TweetObj),
      process_tweets resp = .ok l →
      (1 < (fetchLoop (.page resp :: rest) token acc cap).requests.length ↔
        (rest ≠ [] ∧ resp.data ≠ [] ∧ (acc ++ l).length < cap ∧
          resp.next_token.isSome))) ∧
    get_user_tweets [.page samplePage1, .page samplePage2, .page sampleExtraPage]
        100 =
      ⟨[sampleObj 1, sampleObj 2, sampleObj 3, sampleObj 4, sampleObj 5,
        sampleObj 6, sampleObj 7, sampleObj 8], [none, some "T"], [1]⟩ := by
  constructor
  · intro resp rest token acc cap l hp
    by_cases hemp : resp.data.isEmpty
    · rw [List.isEmpty_iff] at hemp
      simp [fetchLoop, hemp]
    · have hne : resp.data ≠ [] := by
        intro hx
        exact hemp (by simp [hx])
      simp only [fetchLoop, hemp, if_false, Bool.false_eq_true, hp]
      simp only [List.length_append]
      by_cases hcap : cap ≤ acc.length + l.length
      · have : ¬ acc.length + l.length < cap := by omega
        simp [hcap, this]
      · rw [if_neg hcap]
        have hlt : acc.length + l.length < cap := by omega
        cases hnt : resp.next_token with
        | none => simp [hnt]
        | some tok =>
            cases rest with
            | nil => simp [fetchLoop, hne, hlt]
            | cons r2 rest2 =>
                have hnn := fetchLoop_requests_ne_nil r2 rest2 (some tok)
                  (acc ++ l) cap
                simp only [List.length_cons]
                constructor
                · intro _
                  exact ⟨by simp, hne, hlt, by simp⟩
                · intro _
                  have : 0 < (fetchLoop (r2 :: rest2) (some tok) (acc ++ l)
                      cap).requests.length := List.length_pos.mpr hnn
                  omega
  · decide

/-- Witness for C7's conditional part, instantiated on `samplePage1` with more
oracle left, an empty accumulator and cap 100. -/
theorem C7_loop_termination_conditions_witness :
    process_tweets samplePage1 =
      .ok [sampleObj 1, sampleObj 2, sampleObj 3, sampleObj 4, sampleObj 5] ∧
    (1 < (fetchLoop (.page samplePage1 :: [.page samplePage2]) none []
        100).requests.length ↔
      ([FetchResponse.page samplePage2] ≠ [] ∧ samplePage1.data ≠ [] ∧
        (([] : List TweetObj) ++
          [sampleObj 1, sampleObj 2, sampleObj 3, sampleObj 4,
           sampleObj 5]).length < 100 ∧
        samplePage1.next_token.isSome)) :=
  ⟨by rfl,
   C7_loop_termination_conditions.1 samplePage1 [.page samplePage2] none [] 100
     [sampleObj 1, sampleObj 2, sampleObj 3, sampleObj 4, sampleObj 5]
     (by rfl)⟩

/-- Claim C8: a non-rate-limit error aborts only the current account's fetch
loop, returning exactly the posts already collected and issuing no further
requests; and an account whose fetch returned posts has them recorded in the
combined mapping and saved to its per-account file while processing continues
with the remaining accounts' results untouched. -/
theorem C8_error_aborts_account_keeps_collected :
    (∀ (rest : List FetchResponse) (token : Option String)
       (acc : List TweetObj) (cap : Nat),
      fetchLoop (.otherError :: rest) token acc cap = ⟨acc, [token], []⟩) ∧
    (∀ (u : String) (lk : LookupOutcome) (uid : Nat)
       (resp : List FetchResponse) (racc : List Account) (cap : Nat),
      (get_user_id lk).1 = some uid → uid ≠ 0 →
      (get_user_tweets resp cap).tweets ≠ [] →
      follow_users (⟨u, lk, resp⟩ :: racc) cap =
        ((u, (get_user_tweets resp cap).tweets) :: (follow_users racc cap).1,
         (u, (get_user_tweets resp cap).tweets) :: (follow_users racc cap).2)) := by
  constructor
  · intro rest token acc cap
    rfl
  · intro u lk uid resp racc cap hlk huid hne
    have hemp : ((get_user_tweets resp cap).tweets).isEmpty = false := by
      simpa [List.isEmpty_iff] using hne
    simp [follow_users, hlk, huid, hemp]

/-- Witness for C8: an account whose oracle delivers one good five-post page
and then a transport error keeps those five posts in both the combined mapping
and its saved file. -/
theorem C8_error_aborts_account_keeps_collected_witness :
    (get_user_id (.found 7)).1 = some 7 ∧ (7 : Nat) ≠ 0 ∧
    (get_user_tweets [.page samplePage1, .otherError] 100).tweets ≠ [] ∧
    follow_users [⟨"alice", .found 7, [.page samplePage1, .otherError]⟩] 100 =
      ([("alice",
         (get_user_tweets [.page samplePage1, .otherError] 100).tweets)],
       [("alice",
         (get_user_tweets [.page samplePage1, .otherError] 100).tweets)]) :=
  ⟨by decide, by decide, by decide,
   C8_error_aborts_account_keeps_collected.2 "alice" (.found 7) 7
     [.page samplePage1, .otherError] [] 100 (by decide) (by decide)
     (by decide)⟩

/-- Claim C10: an account whose fetch yields zero posts is omitted entirely —
the run's outputs are as if the account were not configured, so no combined
entry and no per-account file — and consequently every handle present in the
combined mapping or among the saved files maps to a non-empty list. -/
theorem C10_empty_accounts_omitted :
    (∀ (a : Account) (rest : List Account) (cap : Nat),
      (get_user_tweets a.responses cap).tweets = [] →
      follow_users (a :: rest) cap = follow_users rest cap) ∧
    (∀ (accounts : List Account) (cap : Nat) (u : String) (ts : List TweetObj),
      (u, ts) ∈ (follow_users accounts cap).1 → ts ≠ []) ∧
    (∀ (accounts : List Account) (cap : Nat) (u : String) (ts : List TweetObj),
      (u, ts) ∈ (follow_users accounts cap).2 → ts ≠ []) := by
  refine ⟨?_, ?_, ?_⟩
  · intro a rest cap h
    cases hlk : (get_user_id a.lookup).1 with
    | none => simp [follow_users, hlk]
    | some uid =>
        by_cases huid : uid = 0
        · simp [follow_users, hlk, huid]
        · simp [follow_users, hlk, huid, h]
  · intro accounts cap
    induction accounts with
    | nil => intro u ts h; simp [follow_users] at h
    | cons a rest ih =>
        intro u ts h
        cases hlk : (get_user_id a.lookup).1 with
        | none => rw [follow_users] at h; rw [hlk] at h; exact ih u ts h
        | some uid =>
            simp only [follow_users, hlk] at h
            by_cases huid : uid = 0
            · rw [if_pos huid] at h; exact ih u ts h
            · rw [if_neg huid] at h
              by_cases hemp : ((get_user_tweets a.responses cap).tweets).isEmpty
              · rw [if_pos hemp] at h; exact ih u ts h
              · rw [if_neg hemp] at h
                simp only [List.mem_cons] at h
                rcases h with h | h
                · have := (Prod.mk.injEq _ _ _ _).mp h
                  rw [this.2]
                  simpa [List.isEmpty_iff] using hemp
                · exact ih u ts h
  · intro accounts cap
    induction accounts with
    | nil => intro u ts h; simp [follow_users] at h
    | cons a rest ih =>
        intro u ts h
        cases hlk : (get_user_id a.lookup).1 with
        | none => rw [follow_users] at h; rw [hlk] at h; exact ih u ts h
        | some uid =>
            simp only [follow_users, hlk] at h
            by_cases huid : uid = 0
            · rw [if_pos huid] at h; exact ih u ts h
            · rw [if_neg huid] at h
              by_cases hemp : ((get_user_tweets a.responses cap).tweets).isEmpty
              · rw [if_pos hemp] at h; exact ih u ts h
              · rw [if_neg hemp] at h
                simp only [List.mem_cons] at h
                rcases h with h | h
                · have := (Prod.mk.injEq _ _ _ _).mp h
                  rw [this.2]
                  simpa [List.isEmpty_iff] using hemp
                · exact ih u ts h

/-- Witness for C10: an account that resolves but whose page is empty leaves
the run's outputs exactly as if it were not configured. -/
theorem C10_empty_accounts_omitted_witness :
    (get_user_tweets
        (Account.responses ⟨"carol", .found 2, [.page sampleEmptyPage]⟩)
        50).tweets = [] ∧
    follow_users [⟨"carol", .found 2, [.page sampleEmptyPage]⟩] 50 =
      follow_users [] 50 :=
  ⟨by decide,
   C10_empty_accounts_omitted.1 ⟨"carol", .found 2, [.page sampleEmptyPage]⟩
     [] 50 (by decide)⟩

/-- Claim C9: normalization succeeds on any page whose raw posts carry their
mandatory `id`, `text` and `created_at` fields, whatever optional fields or
included side tables are absent; and absent side tables behave exactly as
empty ones. -/
theorem C9_normalization_total_on_optional_absence (resp : RawResponse)
    (h : ∀ t ∈ resp.data, t.id.isSome ∧ t.text.isSome ∧ t.created_at.isSome) :
    (∃ l, process_tweets resp = .ok l) ∧
    process_tweets
        { resp with
          includes_users := none
          includes_media := none
          includes_tweets := none } =
      process_tweets
        { resp with
          includes_users := some []
          includes_media := some []
          includes_tweets := some [] } := by
  constructor
  · by_cases hemp : resp.data.isEmpty
    · exact ⟨[], by simp [process_tweets, hemp]⟩
    · obtain ⟨os, hos⟩ := processList_isOk (resp.includes_users.getD [])
        (resp.includes_media.getD []) (resp.includes_tweets.getD [])
        resp.data h
      exact ⟨os, by simp [process_tweets, hemp, hos]⟩
  · rfl

/-- Witness for C9 on a concrete page with every optional field and every side
table absent. -/
theorem C9_normalization_total_on_optional_absence_witness :
    (∀ t ∈ samplePageEnt.data,
      t.id.isSome ∧ t.text.isSome ∧ t.created_at.isSome) ∧
    ((∃ l, process_tweets samplePageEnt = .ok l) ∧
      process_tweets
          { samplePageEnt with
            includes_users := none
            includes_media := none
            includes_tweets := none } =
        process_tweets
          { samplePageEnt with
            includes_users := some []
            includes_media := some []
            includes_tweets := some [] }) :=
  ⟨by decide, C9_normalization_total_on_optional_absence samplePageEnt
    (by decide)⟩

end X2Text
